import Mathlib

/-! # Verification of the groupon-scrapper pipeline

Shallow embedding of the two scraper variants in this repository:
`src/bs4_scrapper.py` (disguised-HTTP transport, namespace `BS4`) and
`src/groupon_scraper.py` (browser-automation transport, namespace `Chrome`).

Markup is abstracted to the results of the fixed BeautifulSoup queries each
extractor performs: a listing page is the list of anchor `href` attribute
values the code iterates, a detail page is a record of the per-field query
results.  Python dicts with insertion order are modelled as association
lists; optional JSON values as an inductive `JVal` with no null constructor,
because the code never stores `None` in a record. -/

/-- JSON-like values as stored by the scraper into a deal record:
strings, the numeric `time.time()` timestamp, lists, and nested dicts. -/
inductive JVal where
  | str : String → JVal
  | num : Nat → JVal
  | arr : List JVal → JVal
  | obj : List (String × JVal) → JVal

/-- A Python dict with string keys in insertion order (a deal record). -/
abbrev DealData := List (String × JVal)

/-- Python substring test `pat in s`. -/
def strContains (s pat : String) : Bool := decide (pat.toList <:+: s.toList)

/-- Python `s.endswith(pat)`. -/
def strEndsWith (s pat : String) : Bool := pat.toList.isSuffixOf s.toList

/-- Python `s.startswith(pat)`. -/
def strStartsWith (s pat : String) : Bool := pat.toList.isPrefixOf s.toList

/-- The acceptance test both variants apply to an anchor href:
`'/deals/' in href and not href.endswith('/deals/')`. -/
def is_deal_href (href : String) : Bool :=
  strContains href "/deals/" && !(strEndsWith href "/deals/")

/-- Absolutisation of an accepted href:
`f"https://www.groupon.com{href}" if href.startswith('/') else href`. -/
def resolve_href (href : String) : String :=
  if strStartsWith href "/" then "https://www.groupon.com" ++ href else href

/-- One iteration of the link-collection loop shared by both variants:
accept the href, resolve it, and append it unless already collected
(`if full_url not in links: links.append(full_url)`). -/
def add_link (links : List String) (href : String) : List String :=
  if is_deal_href href then
    if resolve_href href ∈ links then links else links ++ [resolve_href href]
  else links

/-- `get_deal_links` of `src/groupon_scraper.py` (lines 152-164): iterate all
anchors of the page source in document order, filtering and deduplicating. -/
def get_deal_links (hrefs : List String) : List String :=
  hrefs.foldl add_link []

namespace BS4

/-- `get_deal_links` of `src/bs4_scrapper.py` (lines 146-169): the same
collection loop, run over the elements found by each of the seven CSS
selectors in the order the selectors are tried. -/
def get_deal_links (selector_results : List (List String)) : List String :=
  selector_results.foldl (fun links sel => sel.foldl add_link links) []

end BS4

/-- The conditional-assignment pattern `if x: deal_data[key] = x.get_text(...)`
both extractors use for every optional field: one dict entry when the query
matched, nothing when it did not. -/
def optField (key : String) (v : Option String) : DealData :=
  match v with
  | some s => [(key, JVal.str s)]
  | none => []

/-- Python `line.strip()` restricted to ASCII whitespace: drop whitespace
from both ends of the character list. -/
def pyStrip (s : String) : String :=
  ⟨((s.toList.dropWhile Char.isWhitespace).reverse.dropWhile Char.isWhitespace).reverse⟩

/-- The zip-code loading line shared by both mains:
`[line.strip() for line in f if line.strip()]`. -/
def parse_zip_codes (file_lines : List String) : List String :=
  (file_lines.map pyStrip).filter (fun line => line != "")

namespace Chrome

/-- Results of the per-option class-substring queries of
`get_deal_details` (src/groupon_scraper.py lines 218-242): text of the
first element matching each sub-field pattern inside one deal-option
container, if any. -/
structure OptionSoup where
  option_title : Option String
  original_price : Option String
  current_price : Option String
  discount : Option String
  bought : Option String

/-- Results of the fixed field queries `get_deal_details` performs on a
rendered detail page (src/groupon_scraper.py lines 200-266).  `highlights`
is `some items` when a highlights container was found, carrying the texts
of its list items in document order. -/
structure DetailSoup where
  title : Option String
  merchant : Option String
  location : Option String
  deal_options : List OptionSoup
  fine_print : Option String
  highlights : Option (List String)
  description : Option String

/-- The per-container sub-field extraction (lines 219-242): entries are
inserted in code order title, original_price, current_price, discount,
bought, each only when its query matched. -/
def extract_option (o : OptionSoup) : DealData :=
  optField "title" o.option_title ++ optField "original_price" o.original_price
    ++ optField "current_price" o.current_price ++ optField "discount" o.discount
    ++ optField "bought" o.bought

/-- The option loop (lines 218-245): `if option_data: options.append(option_data)`. -/
def extract_options (l : List OptionSoup) : List JVal :=
  l.foldl (fun options o =>
    if (extract_option o).isEmpty then options
    else options ++ [JVal.obj (extract_option o)]) []

/-- The deal record assembled by `get_deal_details` on a successfully
fetched page (lines 195-266), with dict keys in insertion order. -/
def deal_data_of (url : String) (now : Nat) (soup : DetailSoup) : DealData :=
  [("url", JVal.str url), ("timestamp", JVal.num now)]
    ++ optField "title" soup.title
    ++ optField "merchant" soup.merchant
    ++ optField "location" soup.location
    ++ (if (extract_options soup.deal_options).isEmpty then []
        else [("options", JVal.arr (extract_options soup.deal_options))])
    ++ optField "fine_print" soup.fine_print
    ++ (match soup.highlights with
        | some items => [("highlights", JVal.arr (items.map JVal.str))]
        | none => [])
    ++ optField "description" soup.description

/-- `get_deal_details` (lines 173-275): `fetch` abstracts loading and parsing
the page; on any raised error the record `{"url": url, "error": str(e)}` is
returned instead (lines 270-275). -/
def get_deal_details (fetch : String → Except String DetailSoup) (now : Nat)
    (url : String) : DealData :=
  match fetch url with
  | .ok soup => deal_data_of url now soup
  | .error e => [("url", JVal.str url), ("error", JVal.str e)]

/-- `get_deal_links` including its exception handlers (lines 166-171): any
WebDriver or other error yields the empty link list. -/
def links_of (listing : Except String (List String)) : List String :=
  match listing with
  | .ok hrefs => get_deal_links hrefs
  | .error _ => []

/-- `scrape_deals` (lines 277-295): one record appended per link, tagged with
zip_code and search_term (`if deal_data:` is the Python truthiness test). -/
def scrape_deals (listing : Except String (List String))
    (fetch : String → Except String DetailSoup) (now : Nat)
    (zip_code search_term : String) : List DealData :=
  (links_of listing).foldl (fun deals link =>
    let deal_data := get_deal_details fetch now link
    if deal_data.isEmpty then deals
    else deals ++ [deal_data
      ++ [("zip_code", JVal.str zip_code), ("search_term", JVal.str search_term)]]) []

/-- The per-zip-code loop of `main` (lines 316-319): `all_deals.extend(deals)`. -/
def run_queries (zip_codes : List String) (search_term : String)
    (listing : String → Except String (List String))
    (fetch : String → Except String DetailSoup) (now : Nat) : List DealData :=
  zip_codes.foldl (fun all_deals zip_code =>
    all_deals ++ scrape_deals (listing zip_code) fetch now zip_code search_term) []

/-- `main` (lines 297-335): a missing `zipcodes.txt` raises before anything
else; an empty stripped list raises `ValueError`; otherwise all queries run
and the collected records are returned for serialisation. -/
def main_run (zipfile : Option (List String)) (search_term : String)
    (listing : String → Except String (List String))
    (fetch : String → Except String DetailSoup) (now : Nat) :
    Except String (List DealData) :=
  match zipfile with
  | none => .error "FileNotFoundError: zipcodes.txt"
  | some file_lines =>
    let zip_codes := parse_zip_codes file_lines
    if zip_codes.isEmpty then .error "No ZIP codes found in zipcodes.txt"
    else .ok (run_queries zip_codes search_term listing fetch now)

end Chrome

namespace BS4

/-- Results of the per-option queries of the BS4 variant (src/bs4_scrapper.py
lines 219-233): only original and current price are looked up. -/
structure OptionSoup where
  original_price : Option String
  current_price : Option String

/-- Results of the fixed field queries the BS4 per-link loop performs on a
fetched detail page (src/bs4_scrapper.py lines 205-252). -/
structure DetailSoup where
  title : Option String
  merchant : Option String
  deal_options : List OptionSoup
  highlights : Option (List String)
  fine_print : Option String

/-- Per-container sub-field extraction (lines 220-233). -/
def extract_option (o : OptionSoup) : DealData :=
  optField "original_price" o.original_price ++ optField "current_price" o.current_price

/-- The option loop (lines 218-234): `if option_data: price_options.append(...)`. -/
def extract_options (l : List OptionSoup) : List JVal :=
  l.foldl (fun price_options o =>
    if (extract_option o).isEmpty then price_options
    else price_options ++ [JVal.obj (extract_option o)]) []

/-- The deal record the BS4 per-link body assembles on success
(lines 198-252), dict keys in insertion order.  Unlike the Chrome variant,
url/zip_code/search_term/timestamp come first and the option list is stored
under `price_options`. -/
def deal_data_of (link zip_code search_term : String) (now : Nat)
    (soup : DetailSoup) : DealData :=
  [("url", JVal.str link), ("zip_code", JVal.str zip_code),
      ("search_term", JVal.str search_term), ("timestamp", JVal.num now)]
    ++ optField "title" soup.title
    ++ optField "merchant" soup.merchant
    ++ (if (extract_options soup.deal_options).isEmpty then []
        else [("price_options", JVal.arr (extract_options soup.deal_options))])
    ++ (match soup.highlights with
        | some items => [("highlights", JVal.arr (items.map JVal.str))]
        | none => [])
    ++ optField "fine_print" soup.fine_print

/-- `get_deal_links` including its exception handler (lines 174-179): any
request error yields the empty link list.  On success the seven selector
passes feed the shared collection loop. -/
def links_of (listing : Except String (List (List String))) : List String :=
  match listing with
  | .ok selector_results => get_deal_links selector_results
  | .error _ => []

/-- `scrape_deals` (lines 181-277): the per-link `try` covers the fetch and
the whole extraction; on error the loop does `continue`, appending nothing
(lines 262-267). -/
def scrape_deals (listing : Except String (List (List String)))
    (fetch : String → Except String DetailSoup) (now : Nat)
    (zip_code search_term : String) : List DealData :=
  (links_of listing).foldl (fun deals link =>
    match fetch link with
    | .ok soup => deals ++ [deal_data_of link zip_code search_term now soup]
    | .error _ => deals) []

/-- The per-zip-code loop of `main` (lines 300-304). -/
def run_queries (zip_codes : List String) (search_term : String)
    (listing : String → Except String (List (List String)))
    (fetch : String → Except String DetailSoup) (now : Nat) : List DealData :=
  zip_codes.foldl (fun all_deals zip_code =>
    all_deals ++ scrape_deals (listing zip_code) fetch now zip_code search_term) []

/-- `main` (lines 279-322): missing `zipcodes.txt` or an empty stripped list
aborts (caught at the bottom and turned into `sys.exit(1)`), otherwise all
queries run and the collected records are returned for serialisation. -/
def main_run (zipfile : Option (List String)) (search_term : String)
    (listing : String → Except String (List (List String)))
    (fetch : String → Except String DetailSoup) (now : Nat) :
    Except String (List DealData) :=
  match zipfile with
  | none => .error "FileNotFoundError: zipcodes.txt"
  | some file_lines =>
    let zip_codes := parse_zip_codes file_lines
    if zip_codes.isEmpty then .error "No ZIP codes found in zipcodes.txt"
    else .ok (run_queries zip_codes search_term listing fetch now)

/-- tenacity `wait_exponential(multiplier=1, min=4, max=10)`: the wait before
the retry following attempt `attempt_number` is
`multiplier * 2 ^ (attempt_number - 1)` clamped into `[mn, mx]`. -/
def wait_exponential (multiplier mn mx attempt_number : Nat) : Nat :=
  Nat.max mn (Nat.min (multiplier * 2 ^ (attempt_number - 1)) mx)

/-- The backoff schedule configured on `make_request` (lines 63-66). -/
def make_request_wait (attempt_number : Nat) : Nat :=
  wait_exponential 1 4 10 attempt_number

/-- tenacity retry driver under `stop_after_attempt`: `f n` is the outcome of
the n-th underlying attempt; on failure retry while attempts remain, else
let the last error propagate.  Returns the result and the number of the
attempt that produced it. -/
def retry_call (f : Nat → Except String String) :
    Nat → Nat → Except String String × Nat
  | 0, n => (.error "RetryError", n)
  | remaining + 1, n =>
    match f n with
    | .ok s => (.ok s, n)
    | .error e => if remaining = 0 then (.error e, n) else retry_call f remaining (n + 1)

/-- An HTTP response as the `make_request` body sees it (lines 73-84): the
status code and the decoded body text. -/
structure Response where
  status_code : Nat
  text : String

/-- The body of `make_request` (lines 69-116) for one underlying attempt:
`attempt n` is either a raised exception (network error, timeout) or the
response that arrived.  The body prints `response.status_code` but never
checks it — there is no `raise_for_status` call — so `response.text` is
returned for ANY status, and only raised exceptions reach the `except`
clause that re-raises into tenacity. -/
def make_request_body (attempt : Nat → Except String Response) (n : Nat) :
    Except String String :=
  match attempt n with
  | .ok response => .ok response.text
  | .error e => .error e

/-- `make_request` (lines 63-116): the request body wrapped by
`retry(stop=stop_after_attempt(3), wait=wait_exponential(...))`. -/
def make_request (attempt : Nat → Except String Response) :
    Except String String × Nat :=
  retry_call (make_request_body attempt) 3 1

end BS4

/-- The (url, zip_code, search_term) projection of a record, read off the
dict the way a consumer of the JSON artifact would. -/
def triple (r : DealData) : Option JVal × Option JVal × Option JVal :=
  (List.lookup "url" r, List.lookup "zip_code" r, List.lookup "search_term" r)

/-- The record `Chrome.scrape_deals` appends for one processed link. -/
def chrome_record_of (fetch : String → Except String Chrome.DetailSoup) (now : Nat)
    (zip_code search_term link : String) : DealData :=
  Chrome.get_deal_details fetch now link
    ++ [("zip_code", JVal.str zip_code), ("search_term", JVal.str search_term)]

/-- The record `BS4.scrape_deals` appends for a link whose fetch succeeded
(links whose fetch raised are filtered out before this applies). -/
def bs4_record_of (fetch : String → Except String BS4.DetailSoup) (now : Nat)
    (zip_code search_term link : String) : DealData :=
  match fetch link with
  | .ok soup => BS4.deal_data_of link zip_code search_term now soup
  | .error _ => []


section LinkLemmas

/-- The nested per-selector loop of the BS4 variant equals the flat loop over
the concatenated selector results. -/
theorem bs4_get_deal_links_eq_flatten (srs : List (List String)) :
    BS4.get_deal_links srs = get_deal_links srs.flatten := by
  show srs.foldl (fun links sel => sel.foldl add_link links) [] = _
  rw [get_deal_links]
  generalize ([] : List String) = acc
  induction srs generalizing acc with
  | nil => simp
  | cons s t ih => simp [List.foldl_append, ih]

theorem mem_foldl_add_link {u : String} {hrefs : List String} {acc : List String}
    (h : u ∈ hrefs.foldl add_link acc) :
    u ∈ acc ∨ ∃ href ∈ hrefs, is_deal_href href = true ∧ u = resolve_href href := by
  induction hrefs generalizing acc with
  | nil => exact .inl h
  | cons a t ih =>
    rcases ih h with hmem | ⟨href, hh, hd, hu⟩
    · unfold add_link at hmem
      split at hmem
      · split at hmem
        · exact .inl hmem
        · rcases List.mem_append.1 hmem with h1 | h1
          · exact .inl h1
          · exact .inr ⟨a, by simp, by assumption, (List.mem_singleton.1 h1)⟩
      · exact .inl hmem
    · exact .inr ⟨href, by simp [hh], hd, hu⟩

theorem nodup_foldl_add_link {hrefs acc : List String} (h : acc.Nodup) :
    (hrefs.foldl add_link acc).Nodup := by
  induction hrefs generalizing acc with
  | nil => exact h
  | cons a t ih =>
    apply ih
    unfold add_link
    split
    · split
      · exact h
      · simpa [List.nodup_append] using ⟨h, by assumption⟩
    · exact h

theorem foldl_add_link_eq {hrefs acc : List String}
    (hnodup : (acc ++ (hrefs.filter is_deal_href).map resolve_href).Nodup) :
    hrefs.foldl add_link acc = acc ++ (hrefs.filter is_deal_href).map resolve_href := by
  induction hrefs generalizing acc with
  | nil => simp
  | cons a t ih =>
    rcases ha : is_deal_href a with _ | _
    case false =>
      have hfil : (a :: t).filter is_deal_href = t.filter is_deal_href := by
        simp [List.filter_cons, ha]
      have step : add_link acc a = acc := by
        unfold add_link
        rw [ha]
        rfl
      rw [hfil] at hnodup
      rw [hfil, List.foldl_cons, step]
      exact ih hnodup
    case true =>
      have hfil : (a :: t).filter is_deal_href = a :: t.filter is_deal_href := by
        simp [List.filter_cons, ha]
      rw [hfil] at hnodup
      have hnotmem : resolve_href a ∉ acc := by
        intro hmem
        have := (List.nodup_append.1 (by simpa using hnodup)).2.2
        exact this hmem (by simp)
      have step : add_link acc a = acc ++ [resolve_href a] := by
        unfold add_link
        rw [ha, if_pos rfl, if_neg hnotmem]
      rw [hfil, List.foldl_cons, step, ih (by simpa using hnodup)]
      simp

theorem suffix_of_append_right {α : Type} {l a b : List α}
    (h : l <:+ a ++ b) (hlen : l.length ≤ b.length) : l <:+ b := by
  obtain ⟨t, ht⟩ := h
  have hlen2 : a.length ≤ t.length := by
    have := congrArg List.length ht
    simp at this
    omega
  have hb : b = t.drop a.length ++ l := by
    have h1 : (a ++ b).drop a.length = b := List.drop_left a b
    rw [← ht, List.drop_append_of_le_length hlen2] at h1
    exact h1.symm
  rw [hb]
  exact List.suffix_append _ _

theorem length_le_of_strContains {s pat : String} (h : strContains s pat = true) :
    pat.toList.length ≤ s.toList.length :=
  List.IsInfix.length_le (of_decide_eq_true h)

theorem toList_append (s t : String) : (s ++ t).toList = s.toList ++ t.toList := by
  simp [String.toList, String.data_append]

/-- An accepted href still does not end in the bare deals-index path after
absolutisation: prefixing the site origin cannot create the suffix. -/
theorem resolve_href_not_deals_index {href : String} (h : is_deal_href href = true) :
    strEndsWith (resolve_href href) "/deals/" = false := by
  have h2 := h
  simp only [is_deal_href, Bool.and_eq_true, Bool.not_eq_true'] at h2
  have hc : strContains href "/deals/" = true := h2.1
  have he : strEndsWith href "/deals/" = false := h2.2
  unfold resolve_href
  split
  · apply Bool.eq_false_iff.2
    intro hsuf
    apply Bool.eq_false_iff.1 he
    unfold strEndsWith at hsuf ⊢
    rw [List.isSuffixOf_iff_suffix] at hsuf ⊢
    rw [toList_append] at hsuf
    exact suffix_of_append_right hsuf (length_le_of_strContains hc)
  · exact he

/-- Every collected link is the resolution of some accepted href. -/
theorem mem_get_deal_links {u : String} {hrefs : List String}
    (h : u ∈ get_deal_links hrefs) :
    ∃ href ∈ hrefs, is_deal_href href = true ∧ u = resolve_href href := by
  rcases mem_foldl_add_link h with hmem | hex
  · simp at hmem
  · exact hex

end LinkLemmas
section KeyLemmas

theorem mem_optField_keys {k key : String} {v : Option String} :
    k ∈ (optField key v).map Prod.fst ↔ k = key ∧ v.isSome := by
  cases v <;> simp [optField]

set_option maxHeartbeats 1000000 in
theorem chrome_mem_deal_data_keys {k url : String} {now : Nat} {soup : Chrome.DetailSoup} :
    k ∈ (Chrome.deal_data_of url now soup).map Prod.fst ↔
      k = "url" ∨ k = "timestamp"
      ∨ (k = "title" ∧ soup.title.isSome)
      ∨ (k = "merchant" ∧ soup.merchant.isSome)
      ∨ (k = "location" ∧ soup.location.isSome)
      ∨ (k = "options" ∧ (Chrome.extract_options soup.deal_options).isEmpty = false)
      ∨ (k = "fine_print" ∧ soup.fine_print.isSome)
      ∨ (k = "highlights" ∧ soup.highlights.isSome)
      ∨ (k = "description" ∧ soup.description.isSome) := by
  rcases hh : soup.highlights with _ | items <;>
    rcases hE : (Chrome.extract_options soup.deal_options).isEmpty <;>
      simp only [Chrome.deal_data_of, hh, hE, List.map_append, List.mem_append,
        mem_optField_keys, List.map_cons, List.map_nil, List.mem_cons,
        List.not_mem_nil, Bool.false_eq_true, if_false, if_true, Option.isSome_some,
        Option.isSome_none, and_true, and_false, or_false, false_or,
        Bool.true_eq_false] <;> tauto

set_option maxHeartbeats 1000000 in
theorem bs4_mem_deal_data_keys {k link zip_code search_term : String} {now : Nat}
    {soup : BS4.DetailSoup} :
    k ∈ (BS4.deal_data_of link zip_code search_term now soup).map Prod.fst ↔
      k = "url" ∨ k = "zip_code" ∨ k = "search_term" ∨ k = "timestamp"
      ∨ (k = "title" ∧ soup.title.isSome)
      ∨ (k = "merchant" ∧ soup.merchant.isSome)
      ∨ (k = "price_options" ∧ (BS4.extract_options soup.deal_options).isEmpty = false)
      ∨ (k = "highlights" ∧ soup.highlights.isSome)
      ∨ (k = "fine_print" ∧ soup.fine_print.isSome) := by
  rcases hh : soup.highlights with _ | items <;>
    rcases hE : (BS4.extract_options soup.deal_options).isEmpty <;>
      simp only [BS4.deal_data_of, hh, hE, List.map_append, List.mem_append,
        mem_optField_keys, List.map_cons, List.map_nil, List.mem_cons,
        List.not_mem_nil, Bool.false_eq_true, if_false, if_true, Option.isSome_some,
        Option.isSome_none, and_true, and_false, or_false, false_or,
        Bool.true_eq_false] <;> tauto

theorem chrome_mem_extract_option_keys {k : String} {o : Chrome.OptionSoup} :
    k ∈ (Chrome.extract_option o).map Prod.fst ↔
      (k = "title" ∧ o.option_title.isSome)
      ∨ (k = "original_price" ∧ o.original_price.isSome)
      ∨ (k = "current_price" ∧ o.current_price.isSome)
      ∨ (k = "discount" ∧ o.discount.isSome)
      ∨ (k = "bought" ∧ o.bought.isSome) := by
  simp only [Chrome.extract_option, List.map_append, List.mem_append, mem_optField_keys]
  tauto

theorem bs4_mem_extract_option_keys {k : String} {o : BS4.OptionSoup} :
    k ∈ (BS4.extract_option o).map Prod.fst ↔
      (k = "original_price" ∧ o.original_price.isSome)
      ∨ (k = "current_price" ∧ o.current_price.isSome) := by
  simp only [BS4.extract_option, List.map_append, List.mem_append, mem_optField_keys]

theorem lookup_eq_none_of_not_mem_keys {k : String} {l : DealData}
    (h : k ∉ l.map Prod.fst) : List.lookup k l = none := by
  induction l with
  | nil => rfl
  | cons p t ih =>
    obtain ⟨key, v⟩ := p
    simp only [List.map_cons, List.mem_cons, not_or] at h
    rw [List.lookup_cons]
    have : (k == key) = false := by simpa using h.1
    rw [this]
    exact ih h.2

theorem lookup_append_of_not_mem_keys {k : String} {l₁ l₂ : DealData}
    (h : k ∉ l₁.map Prod.fst) :
    List.lookup k (l₁ ++ l₂) = List.lookup k l₂ := by
  rw [List.lookup_append, lookup_eq_none_of_not_mem_keys h, Option.none_or]

end KeyLemmas

section PipelineLemmas

theorem foldl_append_map {α β : Type} (g : α → List β) (l : List α) (acc : List β) :
    l.foldl (fun a x => a ++ g x) acc = acc ++ (l.map g).flatten := by
  induction l generalizing acc with
  | nil => simp
  | cons x t ih => simp [ih, List.append_assoc]

theorem chrome_get_deal_details_ne_nil (fetch : String → Except String Chrome.DetailSoup)
    (now : Nat) (url : String) : Chrome.get_deal_details fetch now url ≠ [] := by
  unfold Chrome.get_deal_details
  cases fetch url with
  | ok soup => simp [Chrome.deal_data_of]
  | error e => simp

/-- The Chrome per-link loop emits exactly one record per collected link. -/
theorem chrome_scrape_deals_eq_map (listing : Except String (List String))
    (fetch : String → Except String Chrome.DetailSoup) (now : Nat)
    (zip_code search_term : String) :
    Chrome.scrape_deals listing fetch now zip_code search_term
      = (Chrome.links_of listing).map (chrome_record_of fetch now zip_code search_term) := by
  unfold Chrome.scrape_deals
  have key : ∀ (links : List String) (acc : List DealData),
      links.foldl (fun deals link =>
        let deal_data := Chrome.get_deal_details fetch now link
        if deal_data.isEmpty then deals
        else deals ++ [deal_data
          ++ [("zip_code", JVal.str zip_code), ("search_term", JVal.str search_term)]]) acc
      = acc ++ links.map (chrome_record_of fetch now zip_code search_term) := by
    intro links
    induction links with
    | nil => simp
    | cons a t ih =>
      intro acc
      have hne : (Chrome.get_deal_details fetch now a).isEmpty = false := by
        simpa [List.isEmpty_iff] using chrome_get_deal_details_ne_nil fetch now a
      simp only [List.foldl_cons, hne, Bool.false_eq_true, if_false, ih, List.map_cons]
      simp [chrome_record_of, List.append_assoc]
  simpa using key (Chrome.links_of listing) []

theorem chrome_lookup_url (fetch : String → Except String Chrome.DetailSoup)
    (now : Nat) (link : String) :
    List.lookup "url" (Chrome.get_deal_details fetch now link) = some (JVal.str link) := by
  unfold Chrome.get_deal_details
  cases fetch link with
  | ok soup => simp [Chrome.deal_data_of, List.lookup]
  | error e => simp [List.lookup]

theorem chrome_zip_not_key (fetch : String → Except String Chrome.DetailSoup)
    (now : Nat) (link : String) :
    "zip_code" ∉ (Chrome.get_deal_details fetch now link).map Prod.fst := by
  unfold Chrome.get_deal_details
  cases fetch link with
  | ok soup =>
    intro h
    rw [chrome_mem_deal_data_keys] at h
    simp at h
  | error e => simp

theorem chrome_term_not_key (fetch : String → Except String Chrome.DetailSoup)
    (now : Nat) (link : String) :
    "search_term" ∉ (Chrome.get_deal_details fetch now link).map Prod.fst := by
  unfold Chrome.get_deal_details
  cases fetch link with
  | ok soup =>
    intro h
    rw [chrome_mem_deal_data_keys] at h
    simp at h
  | error e => simp

/-- Each emitted Chrome record carries exactly its link, zip code and search
term in the (url, zip_code, search_term) projection. -/
theorem chrome_triple_record_of (fetch : String → Except String Chrome.DetailSoup)
    (now : Nat) (zip_code search_term link : String) :
    triple (chrome_record_of fetch now zip_code search_term link)
      = (some (JVal.str link), some (JVal.str zip_code), some (JVal.str search_term)) := by
  unfold triple chrome_record_of
  refine Prod.ext ?_ (Prod.ext ?_ ?_)
  · rw [List.lookup_append, chrome_lookup_url]
    rfl
  · rw [lookup_append_of_not_mem_keys (chrome_zip_not_key fetch now link)]
    simp [List.lookup]
  · rw [lookup_append_of_not_mem_keys (chrome_term_not_key fetch now link)]
    simp [List.lookup]

/-- The outer zip-code loop concatenates the per-query record lists in file
order. -/
theorem chrome_run_queries_eq_flatten (zip_codes : List String) (search_term : String)
    (listing : String → Except String (List String))
    (fetch : String → Except String Chrome.DetailSoup) (now : Nat) :
    Chrome.run_queries zip_codes search_term listing fetch now
      = (zip_codes.map fun zip_code =>
          Chrome.scrape_deals (listing zip_code) fetch now zip_code search_term).flatten := by
  unfold Chrome.run_queries
  simpa using foldl_append_map
    (fun zip_code => Chrome.scrape_deals (listing zip_code) fetch now zip_code search_term)
    zip_codes []

theorem bs4_run_queries_eq_flatten (zip_codes : List String) (search_term : String)
    (listing : String → Except String (List (List String)))
    (fetch : String → Except String BS4.DetailSoup) (now : Nat) :
    BS4.run_queries zip_codes search_term listing fetch now
      = (zip_codes.map fun zip_code =>
          BS4.scrape_deals (listing zip_code) fetch now zip_code search_term).flatten := by
  unfold BS4.run_queries
  simpa using foldl_append_map
    (fun zip_code => BS4.scrape_deals (listing zip_code) fetch now zip_code search_term)
    zip_codes []

/-- The BS4 per-link loop keeps exactly the links whose fetch succeeded. -/
theorem bs4_scrape_deals_length (listing : Except String (List (List String)))
    (fetch : String → Except String BS4.DetailSoup) (now : Nat)
    (zip_code search_term : String) :
    (BS4.scrape_deals listing fetch now zip_code search_term).length
      = (BS4.links_of listing).countP (fun link => (fetch link).toOption.isSome) := by
  unfold BS4.scrape_deals
  have key : ∀ (links : List String) (acc : List DealData),
      (links.foldl (fun deals link =>
        match fetch link with
        | .ok soup => deals ++ [BS4.deal_data_of link zip_code search_term now soup]
        | .error _ => deals) acc).length
      = acc.length + links.countP (fun link => (fetch link).toOption.isSome) := by
    intro links
    induction links with
    | nil => simp
    | cons a t ih =>
      intro acc
      rcases hf : fetch a with e | soup <;>
        simp [List.foldl_cons, hf, ih, List.countP_cons, Except.toOption]
      omega
  simpa using key (BS4.links_of listing) []

theorem lookup_cons_ne {k key : String} (v : JVal) (rest : DealData)
    (h : (k == key) = false) :
    List.lookup k ((key, v) :: rest) = List.lookup k rest := by
  simp [List.lookup_cons, h]

theorem lookup_optField_ne {k key : String} (v : Option String) (rest : DealData)
    (h : (k == key) = false) :
    List.lookup k (optField key v ++ rest) = List.lookup k rest := by
  cases v <;> simp [optField, List.lookup_cons, h]

theorem lookup_ite_ne {k key : String} (c : Bool) (x : JVal) (rest : DealData)
    (h : (k == key) = false) :
    List.lookup k ((if c then [] else [(key, x)]) ++ rest) = List.lookup k rest := by
  cases c <;> simp [List.lookup_cons, h]

theorem foldl_length_le {α γ : Type} (f : List γ → α → List γ)
    (hf : ∀ acc x, (f acc x).length ≤ acc.length + 1) :
    ∀ (l : List α) (acc : List γ), (l.foldl f acc).length ≤ acc.length + l.length := by
  intro l
  induction l with
  | nil => intro acc; simp
  | cons a t ih =>
    intro acc
    calc (t.foldl f (f acc a)).length ≤ (f acc a).length + t.length := ih _
      _ ≤ acc.length + (a :: t).length := by
          have := hf acc a
          simp only [List.length_cons]
          omega

theorem chrome_links_of_nodup (listing : Except String (List String)) :
    (Chrome.links_of listing).Nodup := by
  unfold Chrome.links_of
  cases listing with
  | ok hrefs => exact nodup_foldl_add_link List.nodup_nil
  | error e => exact List.nodup_nil

/-- The (url, zip_code, search_term) projections of a whole Chrome run. -/
theorem chrome_run_map_triple (zip_codes : List String) (search_term : String)
    (listing : String → Except String (List String))
    (fetch : String → Except String Chrome.DetailSoup) (now : Nat) :
    (Chrome.run_queries zip_codes search_term listing fetch now).map triple
      = (zip_codes.map fun zip_code =>
          (Chrome.links_of (listing zip_code)).map fun link =>
            ((some (JVal.str link) : Option JVal),
             (some (JVal.str zip_code) : Option JVal),
             (some (JVal.str search_term) : Option JVal))).flatten := by
  rw [chrome_run_queries_eq_flatten, List.map_flatten, List.map_map]
  congr 1
  apply List.map_congr_left
  intro zip_code _
  simp only [Function.comp_apply]
  rw [chrome_scrape_deals_eq_map, List.map_map]
  apply List.map_congr_left
  intro link _
  simp only [Function.comp_apply]
  exact chrome_triple_record_of fetch now zip_code search_term link

theorem bs4_links_of_nodup (listing : Except String (List (List String))) :
    (BS4.links_of listing).Nodup := by
  unfold BS4.links_of
  cases listing with
  | ok srs =>
    show (BS4.get_deal_links srs).Nodup
    rw [bs4_get_deal_links_eq_flatten]
    exact nodup_foldl_add_link List.nodup_nil
  | error e => exact List.nodup_nil

/-- The BS4 per-link loop keeps exactly the links whose fetch succeeded, each
contributing its assembled record. -/
theorem bs4_scrape_deals_eq_map (listing : Except String (List (List String)))
    (fetch : String → Except String BS4.DetailSoup) (now : Nat)
    (zip_code search_term : String) :
    BS4.scrape_deals listing fetch now zip_code search_term
      = ((BS4.links_of listing).filter
          (fun link => (fetch link).toOption.isSome)).map
            (bs4_record_of fetch now zip_code search_term) := by
  unfold BS4.scrape_deals
  have key : ∀ (links : List String) (acc : List DealData),
      links.foldl (fun deals link =>
        match fetch link with
        | .ok soup => deals ++ [BS4.deal_data_of link zip_code search_term now soup]
        | .error _ => deals) acc
      = acc ++ (links.filter (fun link => (fetch link).toOption.isSome)).map
          (bs4_record_of fetch now zip_code search_term) := by
    intro links
    induction links with
    | nil => simp
    | cons a t ih =>
      intro acc
      rcases hf : fetch a with e | soup <;>
        simp [List.foldl_cons, hf, ih, List.filter_cons, Except.toOption,
          bs4_record_of, List.append_assoc]
  simpa using key (BS4.links_of listing) []

/-- Each BS4 record carries exactly its link, zip code and search term in the
(url, zip_code, search_term) projection. -/
theorem bs4_triple_deal_data (link zip_code search_term : String) (now : Nat)
    (soup : BS4.DetailSoup) :
    triple (BS4.deal_data_of link zip_code search_term now soup)
      = (some (JVal.str link), some (JVal.str zip_code),
         some (JVal.str search_term)) := by
  have hurl : List.lookup "url" (BS4.deal_data_of link zip_code search_term now soup)
      = some (JVal.str link) := by
    unfold BS4.deal_data_of
    simp only [List.append_assoc, List.cons_append, List.nil_append]
    simp [List.lookup]
  have hzip : List.lookup "zip_code" (BS4.deal_data_of link zip_code search_term now soup)
      = some (JVal.str zip_code) := by
    unfold BS4.deal_data_of
    simp only [List.append_assoc, List.cons_append, List.nil_append]
    rw [lookup_cons_ne _ _ (show (("zip_code" : String) == "url") = false from rfl)]
    simp [List.lookup]
  have hterm : List.lookup "search_term"
        (BS4.deal_data_of link zip_code search_term now soup)
      = some (JVal.str search_term) := by
    unfold BS4.deal_data_of
    simp only [List.append_assoc, List.cons_append, List.nil_append]
    rw [lookup_cons_ne _ _ (show (("search_term" : String) == "url") = false from rfl),
      lookup_cons_ne _ _ (show (("search_term" : String) == "zip_code") = false from rfl)]
    simp [List.lookup]
  unfold triple
  rw [hurl, hzip, hterm]

/-- The (url, zip_code, search_term) projections of a whole BS4 run. -/
theorem bs4_run_map_triple (zip_codes : List String) (search_term : String)
    (listing : String → Except String (List (List String)))
    (fetch : String → Except String BS4.DetailSoup) (now : Nat) :
    (BS4.run_queries zip_codes search_term listing fetch now).map triple
      = (zip_codes.map fun zip_code =>
          ((BS4.links_of (listing zip_code)).filter
              (fun link => (fetch link).toOption.isSome)).map fun link =>
            ((some (JVal.str link) : Option JVal),
             (some (JVal.str zip_code) : Option JVal),
             (some (JVal.str search_term) : Option JVal))).flatten := by
  rw [bs4_run_queries_eq_flatten, List.map_flatten, List.map_map]
  congr 1
  apply List.map_congr_left
  intro zip_code _
  simp only [Function.comp_apply]
  rw [bs4_scrape_deals_eq_map, List.map_map]
  apply List.map_congr_left
  intro link hlink
  simp only [Function.comp_apply]
  have hok := List.of_mem_filter hlink
  rcases hfetch : fetch link with e | soup
  · rw [hfetch] at hok
    simp [Except.toOption] at hok
  · show triple (bs4_record_of fetch now zip_code search_term link) = _
    unfold bs4_record_of
    rw [hfetch]
    exact bs4_triple_deal_data link zip_code search_term now soup

/-- Per-query link lists with pairwise-distinct zip tags flatten to a
duplicate-free list of (url, zip_code, search_term) projections. -/
theorem nodup_flatten_triples (zip_codes : List String) (search_term : String)
    (linksOf : String → List String)
    (hlinks : ∀ z, (linksOf z).Nodup)
    (hnodup : zip_codes.Nodup) :
    ((zip_codes.map fun zip_code => (linksOf zip_code).map fun link =>
        ((some (JVal.str link) : Option JVal),
         (some (JVal.str zip_code) : Option JVal),
         (some (JVal.str search_term) : Option JVal))).flatten).Nodup := by
  refine List.nodup_flatten.2 ⟨?_, ?_⟩
  · intro l hl
    simp only [List.mem_map] at hl
    obtain ⟨zip_code, hz, rfl⟩ := hl
    refine List.Nodup.map ?_ (hlinks _)
    intro a b hab
    have := congrArg (fun t => t.1) hab
    simpa using this
  · rw [List.pairwise_map]
    refine List.Pairwise.imp ?_ hnodup
    intro z w hzw x hx hx2
    simp only [List.mem_map] at hx hx2
    obtain ⟨l1, _, rfl⟩ := hx
    obtain ⟨l2, _, heq⟩ := hx2
    have hwz : w = z := by simpa using congrArg (fun t => t.2.1) heq
    exact hzw hwz.symm

end PipelineLemmas


section Claims

/-- C2 counterexample: two structurally-valid deal anchors with distinct
targets, `/deals/x` and `https://www.groupon.com/deals/x`, resolve to the
same absolute URL, so the extractor returns one URL, not two — deduplication
happens on the resolved URL, not on the anchor target. -/
theorem c2_counterexample :
    is_deal_href "/deals/x" = true
    ∧ is_deal_href "https://www.groupon.com/deals/x" = true
    ∧ "/deals/x" ≠ "https://www.groupon.com/deals/x"
    ∧ get_deal_links ["/deals/x", "https://www.groupon.com/deals/x"]
        = ["https://www.groupon.com/deals/x"]
    ∧ (get_deal_links ["/deals/x", "https://www.groupon.com/deals/x"]).length ≠ 2 := by
  refine ⟨by decide, by decide, by decide, by decide, by decide⟩

/-- C2 (amended): for arbitrary listing markup — valid deal anchors mixed
with navigation links, bare `/deals/` index anchors and anything else — the
extractor returns exactly the resolutions of the structurally-valid deal
anchors, each once, in first-seen order, provided those resolved absolute
URLs are distinct; on any markup whatsoever no returned URL ends in the bare
`/deals/` index path; and the BS4 variant's per-selector passes equal the
flat pass over the concatenated selector results. -/
theorem c2_amended_thm (hrefs : List String)
    (hdistinct : ((hrefs.filter is_deal_href).map resolve_href).Nodup) :
    get_deal_links hrefs = (hrefs.filter is_deal_href).map resolve_href
    ∧ (∀ u ∈ get_deal_links hrefs, strEndsWith u "/deals/" = false)
    ∧ (∀ srs : List (List String),
        BS4.get_deal_links srs = get_deal_links srs.flatten) := by
  refine ⟨?_, ?_, bs4_get_deal_links_eq_flatten⟩
  · have := @foldl_add_link_eq hrefs [] (by simpa using hdistinct)
    simpa [get_deal_links] using this
  · intro u hu
    obtain ⟨href, _, hd, hu2⟩ := mem_get_deal_links hu
    rw [hu2]
    exact resolve_href_not_deals_index hd

/-- C2 witness: a listing mixing a navigation link, a bare index anchor and
two valid deal anchors yields exactly the two valid absolute URLs. -/
theorem c2_witness :
    get_deal_links ["/browse", "/deals/", "/deals/a", "/deals/b"]
      = ["https://www.groupon.com/deals/a", "https://www.groupon.com/deals/b"]
    ∧ strEndsWith "https://www.groupon.com/deals/a" "/deals/" = false := by
  have h := c2_amended_thm ["/browse", "/deals/", "/deals/a", "/deals/b"] (by decide)
  refine ⟨by rw [h.1]; decide, h.2.1 _ (by rw [h.1]; decide)⟩

/-- C3 counterexample: a non-2xx response is not a failure for the retry
policy — the body never checks the status, so a transport answering 404 on
every attempt yields the 404 body as a success on attempt 1, with no retry
and no surfaced error. -/
theorem c3_counterexample :
    BS4.make_request (fun _ => Except.ok ⟨404, "Not Found"⟩)
      = (Except.ok "Not Found", 1) := rfl

/-- C3 (amended): a RAISED failure (network error, timeout) is retried up to
3 total attempts; two raising attempts followed by a response yield that
response's text on attempt 3 with no surfaced error; three raising attempts
propagate the final error; any response — whatever its status code — is
returned as success on the attempt it arrives, since the body never inspects
the status; the backoff schedule starts at 4 seconds, is capped at 10
seconds, and never decreases. -/
theorem c3_amended_thm :
    (∀ attempt : Nat → Except String BS4.Response, (BS4.make_request attempt).2 ≤ 3)
    ∧ (∀ (attempt : Nat → Except String BS4.Response) (r : BS4.Response)
        (e₁ e₂ : String),
        attempt 1 = .error e₁ → attempt 2 = .error e₂ → attempt 3 = .ok r →
        BS4.make_request attempt = (.ok r.text, 3))
    ∧ (∀ (attempt : Nat → Except String BS4.Response) (e₁ e₂ e₃ : String),
        attempt 1 = .error e₁ → attempt 2 = .error e₂ → attempt 3 = .error e₃ →
        BS4.make_request attempt = (.error e₃, 3))
    ∧ (∀ (attempt : Nat → Except String BS4.Response) (r : BS4.Response),
        attempt 1 = .ok r → BS4.make_request attempt = (.ok r.text, 1))
    ∧ BS4.make_request_wait 1 = 4
    ∧ (∀ n, 4 ≤ BS4.make_request_wait n ∧ BS4.make_request_wait n ≤ 10)
    ∧ Monotone BS4.make_request_wait := by
  refine ⟨?_, ?_, ?_, ?_, by decide, ?_, ?_⟩
  · intro attempt
    rcases h1 : attempt 1 with e1 | r1 <;> rcases h2 : attempt 2 with e2 | r2 <;>
      rcases h3 : attempt 3 with e3 | r3 <;>
        simp [BS4.make_request, BS4.make_request_body, BS4.retry_call, h1, h2, h3]
  · intro attempt r e₁ e₂ h1 h2 h3
    simp [BS4.make_request, BS4.make_request_body, BS4.retry_call, h1, h2, h3]
  · intro attempt e₁ e₂ e₃ h1 h2 h3
    simp [BS4.make_request, BS4.make_request_body, BS4.retry_call, h1, h2, h3]
  · intro attempt r h1
    simp [BS4.make_request, BS4.make_request_body, BS4.retry_call, h1]
  · intro n
    unfold BS4.make_request_wait BS4.wait_exponential
    constructor
    · exact Nat.le_max_left _ _
    · exact Nat.max_le.2 ⟨by norm_num, Nat.min_le_right _ _⟩
  · intro a b hab
    unfold BS4.make_request_wait BS4.wait_exponential
    have h2 : 2 ^ (a - 1) ≤ 2 ^ (b - 1) := Nat.pow_le_pow_right (by norm_num) (by omega)
    exact max_le_max le_rfl (min_le_min (by simpa using h2) le_rfl)

/-- C3 witness: a transport raising twice then answering with status 200, and
one answering 500 immediately. -/
theorem c3_witness :
    BS4.make_request (fun n => if n < 3 then .error "timeout"
        else .ok ⟨200, "page"⟩)
      = (.ok "page", 3)
    ∧ BS4.make_request (fun _ => Except.ok ⟨500, "Server Error"⟩)
      = (.ok "Server Error", 1)
    ∧ 4 ≤ BS4.make_request_wait 2 ∧ BS4.make_request_wait 2 ≤ 10 := by
  refine ⟨c3_amended_thm.2.1 _ ⟨200, "page"⟩ "timeout" "timeout" rfl rfl rfl,
    c3_amended_thm.2.2.2.1 _ ⟨500, "Server Error"⟩ rfl,
    c3_amended_thm.2.2.2.2.2.1 2⟩

/-- C1 counterexample: in the BS4 variant a detail URL whose fetch raises is
skipped with `continue` — no error-tagged record is emitted for it, so the
result has zero records although one detail URL was attempted. -/
theorem c1_counterexample :
    BS4.links_of (Except.ok [["/deals/a"]]) = ["https://www.groupon.com/deals/a"]
    ∧ BS4.scrape_deals (Except.ok [["/deals/a"]])
        (fun _ => Except.error "network error") 0 "10001" "Hydrafacial" = [] :=
  ⟨rfl, rfl⟩

/-- C1 (amended): in the browser-automation variant every attempted detail
URL yields exactly one record, and a failing fetch/extraction yields the
error-tagged record (url and error message) before the run continues; in the
HTTP variant a failing link is skipped and contributes no record, the run
continuing with the remaining links (record count = number of links whose
fetch succeeded). -/
theorem c1_amended_thm :
    (∀ (listing : Except String (List String))
        (fetch : String → Except String Chrome.DetailSoup) (now : Nat)
        (zip_code search_term : String),
      Chrome.scrape_deals listing fetch now zip_code search_term
        = (Chrome.links_of listing).map
            (chrome_record_of fetch now zip_code search_term))
    ∧ (∀ (fetch : String → Except String Chrome.DetailSoup) (now : Nat)
        (zip_code search_term link e : String),
        fetch link = Except.error e →
        chrome_record_of fetch now zip_code search_term link
          = [("url", JVal.str link), ("error", JVal.str e),
             ("zip_code", JVal.str zip_code), ("search_term", JVal.str search_term)])
    ∧ (∀ (listing : Except String (List (List String)))
        (fetch : String → Except String BS4.DetailSoup) (now : Nat)
        (zip_code search_term : String),
        (BS4.scrape_deals listing fetch now zip_code search_term).length
          = (BS4.links_of listing).countP
              (fun link => (fetch link).toOption.isSome)) := by
  refine ⟨chrome_scrape_deals_eq_map, ?_, bs4_scrape_deals_length⟩
  intro fetch now zip_code search_term link e h
  unfold chrome_record_of Chrome.get_deal_details
  rw [h]
  rfl

/-- C1 witness: one failing link in each variant. -/
theorem c1_witness :
    Chrome.scrape_deals (Except.ok ["/deals/a"]) (fun _ => Except.error "boom") 0
        "10001" "Hydrafacial"
      = [[("url", JVal.str "https://www.groupon.com/deals/a"),
          ("error", JVal.str "boom"),
          ("zip_code", JVal.str "10001"), ("search_term", JVal.str "Hydrafacial")]]
    ∧ (BS4.scrape_deals (Except.ok [["/deals/a"]]) (fun _ => Except.error "boom") 0
        "10001" "Hydrafacial").length = 0 := by
  have h := c1_amended_thm
  constructor
  · rw [h.1 (Except.ok ["/deals/a"]) (fun _ => Except.error "boom") 0
        "10001" "Hydrafacial",
      show Chrome.links_of (Except.ok ["/deals/a"])
          = ["https://www.groupon.com/deals/a"] from rfl,
      List.map_cons, List.map_nil,
      h.2.1 (fun _ => Except.error "boom") 0 "10001" "Hydrafacial"
        "https://www.groupon.com/deals/a" "boom" rfl]
  · rw [h.2.2 (Except.ok [["/deals/a"]]) (fun _ => Except.error "boom") 0
        "10001" "Hydrafacial"]
    rfl

/-- C4: each query's records are concatenated in query order, and a query
whose listing fetch fails contributes the empty record list while the
remaining queries still run — in both variants. -/
theorem c4_query_failure_isolated :
    (∀ (zip_codes : List String) (search_term : String)
        (listing : String → Except String (List String))
        (fetch : String → Except String Chrome.DetailSoup) (now : Nat),
      Chrome.run_queries zip_codes search_term listing fetch now
        = (zip_codes.map fun zip_code =>
            Chrome.scrape_deals (listing zip_code) fetch now zip_code
              search_term).flatten)
    ∧ (∀ (e : String) (fetch : String → Except String Chrome.DetailSoup) (now : Nat)
        (zip_code search_term : String),
        Chrome.scrape_deals (Except.error e) fetch now zip_code search_term = [])
    ∧ (∀ (zip_codes : List String) (search_term : String)
        (listing : String → Except String (List (List String)))
        (fetch : String → Except String BS4.DetailSoup) (now : Nat),
      BS4.run_queries zip_codes search_term listing fetch now
        = (zip_codes.map fun zip_code =>
            BS4.scrape_deals (listing zip_code) fetch now zip_code
              search_term).flatten)
    ∧ (∀ (e : String) (fetch : String → Except String BS4.DetailSoup) (now : Nat)
        (zip_code search_term : String),
        BS4.scrape_deals (Except.error e) fetch now zip_code search_term = []) :=
  ⟨chrome_run_queries_eq_flatten, fun _ _ _ _ _ => rfl,
    bs4_run_queries_eq_flatten, fun _ _ _ _ _ => rfl⟩

/-- C4 witness: the second of two queries fails; the run equals the first
query's records alone. -/
theorem c4_witness :
    Chrome.run_queries ["10001", "90210"] "Hydrafacial"
      (fun zip_code => if zip_code = "10001"
        then Except.ok ["/deals/a"] else Except.error "net")
      (fun _ => Except.error "boom") 0
    = Chrome.scrape_deals (Except.ok ["/deals/a"]) (fun _ => Except.error "boom") 0
        "10001" "Hydrafacial"
    ∧ Chrome.scrape_deals (Except.error "net") (fun _ => Except.error "boom") 0
        "90210" "Hydrafacial" = [] := by
  have h := c4_query_failure_isolated
  refine ⟨?_, h.2.1 "net" _ 0 "90210" "Hydrafacial"⟩
  rw [h.1]
  simp [h.2.1]

/-- C5 counterexample: the artifact does not use the section-3 field names —
a concrete record stores the timestamp under `timestamp` (not
`retrieved_at`) and the postal code under `zip_code` (not `postal_code`). -/
theorem c5_counterexample :
    (chrome_record_of
        (fun _ => Except.ok ⟨none, none, none, [], none, none, none⟩) 0
        "10001" "Hydrafacial" "https://www.groupon.com/deals/a").map Prod.fst
      = ["url", "timestamp", "zip_code", "search_term"]
    ∧ "retrieved_at" ∉ (chrome_record_of
        (fun _ => Except.ok ⟨none, none, none, [], none, none, none⟩) 0
        "10001" "Hydrafacial" "https://www.groupon.com/deals/a").map Prod.fst
    ∧ "postal_code" ∉ (chrome_record_of
        (fun _ => Except.ok ⟨none, none, none, [], none, none, none⟩) 0
        "10001" "Hydrafacial" "https://www.groupon.com/deals/a").map Prod.fst := by
  refine ⟨by decide, by decide, by decide⟩

/-- C5 (amended): every key of an output record is drawn from the code's own
field names — Chrome variant: url, timestamp, title, merchant, location,
options, fine_print, highlights, description, error, zip_code, search_term
with price-option sub-fields title, original_price, current_price, discount,
bought; BS4 variant: url, zip_code, search_term, timestamp, title, merchant,
price_options, highlights, fine_print with sub-fields original_price,
current_price. -/
theorem c5_amended_thm :
    (∀ (fetch : String → Except String Chrome.DetailSoup) (now : Nat)
        (zip_code search_term link k : String),
      k ∈ (chrome_record_of fetch now zip_code search_term link).map Prod.fst →
      k ∈ ["url", "timestamp", "title", "merchant", "location", "options",
           "fine_print", "highlights", "description", "error",
           "zip_code", "search_term"])
    ∧ (∀ (o : Chrome.OptionSoup) (k : String),
        k ∈ (Chrome.extract_option o).map Prod.fst →
        k ∈ ["title", "original_price", "current_price", "discount", "bought"])
    ∧ (∀ (link zip_code search_term : String) (now : Nat) (soup : BS4.DetailSoup)
        (k : String),
        k ∈ (BS4.deal_data_of link zip_code search_term now soup).map Prod.fst →
        k ∈ ["url", "zip_code", "search_term", "timestamp", "title", "merchant",
             "price_options", "highlights", "fine_print"])
    ∧ (∀ (o : BS4.OptionSoup) (k : String),
        k ∈ (BS4.extract_option o).map Prod.fst →
        k ∈ ["original_price", "current_price"]) := by
  refine ⟨?_, ?_, ?_, ?_⟩
  · intro fetch now zip_code search_term link k hk
    unfold chrome_record_of at hk
    simp only [List.map_append, List.mem_append] at hk
    rcases hk with hk | hk
    · unfold Chrome.get_deal_details at hk
      rcases hfetch : fetch link with e | soup <;> rw [hfetch] at hk
      · simp only [List.map_cons, List.map_nil, List.mem_cons,
          List.not_mem_nil, or_false] at hk
        rcases hk with h | h <;> simp [h]
      · rw [chrome_mem_deal_data_keys] at hk
        rcases hk with h | h | ⟨h, _⟩ | ⟨h, _⟩ | ⟨h, _⟩ | ⟨h, _⟩ | ⟨h, _⟩
          | ⟨h, _⟩ | ⟨h, _⟩ <;> simp [h]
    · simp only [List.map_cons, List.map_nil, List.mem_cons,
        List.not_mem_nil, or_false] at hk
      rcases hk with h | h <;> simp [h]
  · intro o k hk
    rw [chrome_mem_extract_option_keys] at hk
    rcases hk with ⟨h, _⟩ | ⟨h, _⟩ | ⟨h, _⟩ | ⟨h, _⟩ | ⟨h, _⟩ <;> simp [h]
  · intro link zip_code search_term now soup k hk
    rw [bs4_mem_deal_data_keys] at hk
    rcases hk with h | h | h | h | ⟨h, _⟩ | ⟨h, _⟩ | ⟨h, _⟩ | ⟨h, _⟩ | ⟨h, _⟩ <;>
      simp [h]
  · intro o k hk
    rw [bs4_mem_extract_option_keys] at hk
    rcases hk with ⟨h, _⟩ | ⟨h, _⟩ <;> simp [h]

/-- C5 witness: a concrete key of a concrete record is among the allowed
names. -/
theorem c5_witness :
    ("zip_code" : String) ∈ ["url", "timestamp", "title", "merchant", "location",
      "options", "fine_print", "highlights", "description", "error",
      "zip_code", "search_term"] :=
  c5_amended_thm.1 (fun _ => Except.error "boom") 0 "10001" "Hydrafacial"
    "u" "zip_code" (by decide)

/-- C6: when an optional field's query finds no element, the corresponding
key is absent from the record (hence neither an empty string nor a null is
stored) — for every optional record field and price sub-field of both
variants. -/
theorem c6_missing_fields_omitted :
    ∀ (url : String) (now : Nat) (soup : Chrome.DetailSoup) (o : Chrome.OptionSoup)
      (link zip_code search_term : String) (bsoup : BS4.DetailSoup)
      (bo : BS4.OptionSoup),
      (soup.title = none →
        "title" ∉ (Chrome.deal_data_of url now soup).map Prod.fst)
      ∧ (soup.merchant = none →
        "merchant" ∉ (Chrome.deal_data_of url now soup).map Prod.fst)
      ∧ (soup.location = none →
        "location" ∉ (Chrome.deal_data_of url now soup).map Prod.fst)
      ∧ (soup.fine_print = none →
        "fine_print" ∉ (Chrome.deal_data_of url now soup).map Prod.fst)
      ∧ (soup.description = none →
        "description" ∉ (Chrome.deal_data_of url now soup).map Prod.fst)
      ∧ (o.option_title = none →
        "title" ∉ (Chrome.extract_option o).map Prod.fst)
      ∧ (o.original_price = none →
        "original_price" ∉ (Chrome.extract_option o).map Prod.fst)
      ∧ (o.current_price = none →
        "current_price" ∉ (Chrome.extract_option o).map Prod.fst)
      ∧ (o.discount = none →
        "discount" ∉ (Chrome.extract_option o).map Prod.fst)
      ∧ (o.bought = none →
        "bought" ∉ (Chrome.extract_option o).map Prod.fst)
      ∧ (bsoup.title = none →
        "title" ∉ (BS4.deal_data_of link zip_code search_term now bsoup).map Prod.fst)
      ∧ (bsoup.merchant = none →
        "merchant" ∉ (BS4.deal_data_of link zip_code search_term now bsoup).map Prod.fst)
      ∧ (bsoup.fine_print = none →
        "fine_print" ∉ (BS4.deal_data_of link zip_code search_term now bsoup).map Prod.fst)
      ∧ (bo.original_price = none →
        "original_price" ∉ (BS4.extract_option bo).map Prod.fst)
      ∧ (bo.current_price = none →
        "current_price" ∉ (BS4.extract_option bo).map Prod.fst) := by
  intro url now soup o link zip_code search_term bsoup bo
  refine ⟨?_, ?_, ?_, ?_, ?_, ?_, ?_, ?_, ?_, ?_, ?_, ?_, ?_, ?_, ?_⟩ <;>
    intro h hk <;>
    first
    | (rw [chrome_mem_deal_data_keys] at hk; simp [h] at hk)
    | (rw [chrome_mem_extract_option_keys] at hk; simp [h] at hk)
    | (rw [bs4_mem_deal_data_keys] at hk; simp [h] at hk)
    | (rw [bs4_mem_extract_option_keys] at hk; simp [h] at hk)

/-- C6 witness: concrete detail pages and option containers with no matches
produce records without the corresponding keys. -/
theorem c6_witness :
    "title" ∉ (Chrome.deal_data_of "u" 0
        ⟨none, none, none, [], none, none, none⟩).map Prod.fst
    ∧ "original_price" ∉ (Chrome.extract_option
        ⟨none, none, none, none, none⟩).map Prod.fst
    ∧ "merchant" ∉ (BS4.deal_data_of "u" "10001" "Hydrafacial" 0
        ⟨none, none, [], none, none⟩).map Prod.fst := by
  have h := c6_missing_fields_omitted "u" 0 ⟨none, none, none, [], none, none, none⟩
    ⟨none, none, none, none, none⟩ "u" "10001" "Hydrafacial"
    ⟨none, none, [], none, none⟩ ⟨none, none⟩
  exact ⟨h.1 rfl, h.2.2.2.2.2.2.1 rfl, h.2.2.2.2.2.2.2.2.2.2.2.1 rfl⟩

/-- C7: an option container with no recognised sub-field contributes no entry
to the option list, and the option list never exceeds the container count —
in both variants. -/
theorem c7_empty_containers_contribute_nothing :
    ∀ (l l₁ l₂ : List Chrome.OptionSoup) (o : Chrome.OptionSoup)
      (bl bl₁ bl₂ : List BS4.OptionSoup) (bo : BS4.OptionSoup),
      (Chrome.extract_options l).length ≤ l.length
      ∧ (o.option_title = none → o.original_price = none → o.current_price = none →
          o.discount = none → o.bought = none → Chrome.extract_option o = [])
      ∧ (Chrome.extract_option o = [] →
          Chrome.extract_options (l₁ ++ o :: l₂) = Chrome.extract_options (l₁ ++ l₂))
      ∧ (BS4.extract_options bl).length ≤ bl.length
      ∧ (bo.original_price = none → bo.current_price = none →
          BS4.extract_option bo = [])
      ∧ (BS4.extract_option bo = [] →
          BS4.extract_options (bl₁ ++ bo :: bl₂) = BS4.extract_options (bl₁ ++ bl₂)) := by
  intro l l₁ l₂ o bl bl₁ bl₂ bo
  refine ⟨?_, ?_, ?_, ?_, ?_, ?_⟩
  · unfold Chrome.extract_options
    have hstep : ∀ (acc : List JVal) (x : Chrome.OptionSoup),
        ((fun options o => if (Chrome.extract_option o).isEmpty then options
          else options ++ [JVal.obj (Chrome.extract_option o)]) acc x).length
          ≤ acc.length + 1 := by
      intro acc x
      rcases hx : (Chrome.extract_option x).isEmpty <;> simp [hx]
    simpa using foldl_length_le _ hstep l []
  · intro h1 h2 h3 h4 h5
    simp [Chrome.extract_option, optField, h1, h2, h3, h4, h5]
  · intro h
    unfold Chrome.extract_options
    rw [List.foldl_append, List.foldl_append]
    simp [h]
  · unfold BS4.extract_options
    have hstep : ∀ (acc : List JVal) (x : BS4.OptionSoup),
        ((fun price_options o => if (BS4.extract_option o).isEmpty then price_options
          else price_options ++ [JVal.obj (BS4.extract_option o)]) acc x).length
          ≤ acc.length + 1 := by
      intro acc x
      rcases hx : (BS4.extract_option x).isEmpty <;> simp [hx]
    simpa using foldl_length_le _ hstep bl []
  · intro h1 h2
    simp [BS4.extract_option, optField, h1, h2]
  · intro h
    unfold BS4.extract_options
    rw [List.foldl_append, List.foldl_append]
    simp [h]

/-- C7 witness: a two-container page whose first container has no recognised
sub-field yields a single-option list. -/
theorem c7_witness :
    (Chrome.extract_options [⟨none, none, none, none, none⟩,
        ⟨some "opt", none, none, none, none⟩]).length ≤ 2
    ∧ Chrome.extract_option ⟨none, none, none, none, none⟩ = []
    ∧ Chrome.extract_options ([] ++ (⟨none, none, none, none, none⟩ : Chrome.OptionSoup)
          :: [⟨some "opt", none, none, none, none⟩])
        = Chrome.extract_options ([] ++ [⟨some "opt", none, none, none, none⟩]) := by
  have h := c7_empty_containers_contribute_nothing
    [⟨none, none, none, none, none⟩, ⟨some "opt", none, none, none, none⟩]
    [] [⟨some "opt", none, none, none, none⟩] ⟨none, none, none, none, none⟩
    [] [] [] ⟨none, none⟩
  exact ⟨h.1, h.2.1 rfl rfl rfl rfl rfl, h.2.2.1 (h.2.1 rfl rfl rfl rfl rfl)⟩

/-- C10: a highlights container with zero list items yields a record whose
highlights key is present and bound to the empty list, in both variants. -/
theorem c10_empty_highlights_list :
    ∀ (url : String) (now : Nat) (soup : Chrome.DetailSoup)
      (link zip_code search_term : String) (bsoup : BS4.DetailSoup),
      (soup.highlights = some [] →
        List.lookup "highlights" (Chrome.deal_data_of url now soup)
          = some (JVal.arr []))
      ∧ (bsoup.highlights = some [] →
        List.lookup "highlights" (BS4.deal_data_of link zip_code search_term now bsoup)
          = some (JVal.arr [])) := by
  intro url now soup link zip_code search_term bsoup
  constructor
  · intro h
    unfold Chrome.deal_data_of
    rw [h]
    simp only [List.append_assoc, List.cons_append, List.nil_append, List.map_nil]
    rw [lookup_cons_ne _ _ (by decide), lookup_cons_ne _ _ (by decide),
      lookup_optField_ne _ _ (by decide), lookup_optField_ne _ _ (by decide),
      lookup_optField_ne _ _ (by decide), lookup_ite_ne _ _ _ (by decide),
      lookup_optField_ne _ _ (by decide)]
    simp [List.lookup]
  · intro h
    unfold BS4.deal_data_of
    rw [h]
    simp only [List.append_assoc, List.cons_append, List.nil_append, List.map_nil]
    rw [lookup_cons_ne _ _ (by decide), lookup_cons_ne _ _ (by decide),
      lookup_cons_ne _ _ (by decide), lookup_cons_ne _ _ (by decide),
      lookup_optField_ne _ _ (by decide), lookup_optField_ne _ _ (by decide),
      lookup_ite_ne _ _ _ (by decide)]
    simp [List.lookup]

/-- C10 witness: concrete pages whose highlights container is empty. -/
theorem c10_witness :
    List.lookup "highlights" (Chrome.deal_data_of "u" 0
        ⟨none, none, none, [], none, some [], none⟩) = some (JVal.arr [])
    ∧ List.lookup "highlights" (BS4.deal_data_of "u" "10001" "Hydrafacial" 0
        ⟨none, none, [], some [], none⟩) = some (JVal.arr []) := by
  have h := c10_empty_highlights_list "u" 0 ⟨none, none, none, [], none, some [], none⟩
    "u" "10001" "Hydrafacial" ⟨none, none, [], some [], none⟩
  exact ⟨h.1 rfl, h.2 rfl⟩

/-- C8 counterexample: a postal-code file repeating the same code makes the
run process the same query twice, emitting two records with identical
(url, zip_code, search_term). -/
theorem c8_counterexample :
    Chrome.main_run (some ["10001", "10001"]) "Hydrafacial"
      (fun _ => Except.ok ["/deals/a"]) (fun _ => Except.error "boom") 0
    = Except.ok
        [[("url", JVal.str "https://www.groupon.com/deals/a"),
          ("error", JVal.str "boom"),
          ("zip_code", JVal.str "10001"), ("search_term", JVal.str "Hydrafacial")],
         [("url", JVal.str "https://www.groupon.com/deals/a"),
          ("error", JVal.str "boom"),
          ("zip_code", JVal.str "10001"), ("search_term", JVal.str "Hydrafacial")]]
    ∧ ¬ (([[("url", JVal.str "https://www.groupon.com/deals/a"),
          ("error", JVal.str "boom"),
          ("zip_code", JVal.str "10001"), ("search_term", JVal.str "Hydrafacial")],
         [("url", JVal.str "https://www.groupon.com/deals/a"),
          ("error", JVal.str "boom"),
          ("zip_code", JVal.str "10001"),
          ("search_term", JVal.str "Hydrafacial")]] : List DealData).map triple).Nodup := by
  constructor
  · rfl
  · intro hn
    simp only [List.map_cons, List.map_nil] at hn
    exact (List.nodup_cons.1 hn).1 (List.mem_singleton.2 rfl)

/-- C8 (amended): provided the postal-code file contains no duplicate entry
after stripping, no two records of a completed run — of either variant —
share the same (url, zip_code, search_term) projection. -/
theorem c8_amended_thm (file_lines : List String) (search_term : String)
    (hnodup : (parse_zip_codes file_lines).Nodup) :
    (∀ (listing : String → Except String (List String))
        (fetch : String → Except String Chrome.DetailSoup) (now : Nat)
        (res : List DealData),
      Chrome.main_run (some file_lines) search_term listing fetch now
        = Except.ok res →
      (res.map triple).Nodup)
    ∧ (∀ (listing : String → Except String (List (List String)))
        (fetch : String → Except String BS4.DetailSoup) (now : Nat)
        (res : List DealData),
      BS4.main_run (some file_lines) search_term listing fetch now
        = Except.ok res →
      (res.map triple).Nodup) := by
  constructor
  · intro listing fetch now res hrun
    dsimp only [Chrome.main_run] at hrun
    rcases hE : (parse_zip_codes file_lines).isEmpty with _ | _
    case true =>
      rw [hE] at hrun
      simp at hrun
    case false =>
      rw [hE] at hrun
      simp only [Bool.false_eq_true, if_false, Except.ok.injEq] at hrun
      subst hrun
      rw [chrome_run_map_triple]
      exact nodup_flatten_triples _ search_term
        (fun zip_code => Chrome.links_of (listing zip_code))
        (fun zip_code => chrome_links_of_nodup _) hnodup
  · intro listing fetch now res hrun
    dsimp only [BS4.main_run] at hrun
    rcases hE : (parse_zip_codes file_lines).isEmpty with _ | _
    case true =>
      rw [hE] at hrun
      simp at hrun
    case false =>
      rw [hE] at hrun
      simp only [Bool.false_eq_true, if_false, Except.ok.injEq] at hrun
      subst hrun
      rw [bs4_run_map_triple]
      exact nodup_flatten_triples _ search_term
        (fun zip_code => (BS4.links_of (listing zip_code)).filter
          (fun link => (fetch link).toOption.isSome))
        (fun zip_code => List.Nodup.filter _ (bs4_links_of_nodup _)) hnodup

/-- C8 witness: two distinct postal codes, no duplicate triples in either
variant's result. -/
theorem c8_witness :
    ((Chrome.run_queries (parse_zip_codes ["10001", "90210"]) "Hydrafacial"
      (fun _ => Except.ok ["/deals/a"]) (fun _ => Except.error "boom") 0).map
        triple).Nodup
    ∧ ((BS4.run_queries (parse_zip_codes ["10001", "90210"]) "Hydrafacial"
      (fun _ => Except.ok [["/deals/a"]])
      (fun _ => Except.ok ⟨none, none, [], none, none⟩) 0).map triple).Nodup := by
  have h := c8_amended_thm ["10001", "90210"] "Hydrafacial" (by decide)
  exact ⟨h.1 (fun _ => Except.ok ["/deals/a"]) (fun _ => Except.error "boom") 0
      (Chrome.run_queries (parse_zip_codes ["10001", "90210"]) "Hydrafacial"
        (fun _ => Except.ok ["/deals/a"]) (fun _ => Except.error "boom") 0) rfl,
    h.2 (fun _ => Except.ok [["/deals/a"]])
      (fun _ => Except.ok ⟨none, none, [], none, none⟩) 0
      (BS4.run_queries (parse_zip_codes ["10001", "90210"]) "Hydrafacial"
        (fun _ => Except.ok [["/deals/a"]])
        (fun _ => Except.ok ⟨none, none, [], none, none⟩) 0) rfl⟩

/-- C9: stripped blank lines are dropped while the remaining lines produce one
query pass each in file order; a missing file or an all-blank file aborts
with an error without consulting the transport. -/
theorem c9_zip_file_handling :
    (∀ file_lines : List String,
      parse_zip_codes file_lines
        = (file_lines.filter fun line => pyStrip line != "").map pyStrip
      ∧ (parse_zip_codes file_lines).length
          = file_lines.countP (fun line => pyStrip line != ""))
    ∧ (∀ (search_term : String)
        (listing₁ listing₂ : String → Except String (List String))
        (fetch₁ fetch₂ : String → Except String Chrome.DetailSoup) (now₁ now₂ : Nat),
        Chrome.main_run none search_term listing₁ fetch₁ now₁
          = Except.error "FileNotFoundError: zipcodes.txt"
        ∧ Chrome.main_run none search_term listing₁ fetch₁ now₁
            = Chrome.main_run none search_term listing₂ fetch₂ now₂)
    ∧ (∀ (file_lines : List String) (search_term : String)
        (listing : String → Except String (List String))
        (fetch : String → Except String Chrome.DetailSoup) (now : Nat),
        parse_zip_codes file_lines = [] →
        Chrome.main_run (some file_lines) search_term listing fetch now
          = Except.error "No ZIP codes found in zipcodes.txt")
    ∧ (∀ (zip_codes : List String) (search_term : String)
        (listing : String → Except String (List String))
        (fetch : String → Except String Chrome.DetailSoup) (now : Nat),
      Chrome.run_queries zip_codes search_term listing fetch now
        = (zip_codes.map fun zip_code =>
            Chrome.scrape_deals (listing zip_code) fetch now zip_code
              search_term).flatten)
    ∧ (∀ (file_lines : List String) (search_term : String)
        (listing : String → Except String (List (List String)))
        (fetch : String → Except String BS4.DetailSoup) (now : Nat),
        BS4.main_run none search_term listing fetch now
          = Except.error "FileNotFoundError: zipcodes.txt"
        ∧ (parse_zip_codes file_lines = [] →
          BS4.main_run (some file_lines) search_term listing fetch now
            = Except.error "No ZIP codes found in zipcodes.txt")) := by
  refine ⟨?_, ?_, ?_, chrome_run_queries_eq_flatten, ?_⟩
  · intro file_lines
    constructor
    · rw [parse_zip_codes, List.filter_map]
      rfl
    · rw [parse_zip_codes, ← List.countP_eq_length_filter, List.countP_map]
      rfl
  · intro search_term l₁ l₂ f₁ f₂ n₁ n₂
    exact ⟨rfl, rfl⟩
  · intro file_lines search_term listing fetch now h
    simp [Chrome.main_run, h]
  · intro file_lines search_term listing fetch now
    exact ⟨rfl, fun h => by simp [BS4.main_run, h]⟩

/-- C9 witness: one blank line between two codes gives exactly two passes in
file order; an all-blank file and a missing file abort. -/
theorem c9_witness :
    parse_zip_codes ["10001", "", "90210"] = ["10001", "90210"]
    ∧ (parse_zip_codes ["10001", "", "90210"]).length = 2
    ∧ Chrome.main_run (some ["", "   "]) "Hydrafacial"
        (fun _ => Except.ok []) (fun _ => Except.error "boom") 0
      = Except.error "No ZIP codes found in zipcodes.txt"
    ∧ Chrome.main_run none "Hydrafacial" (fun _ => Except.ok [])
        (fun _ => Except.error "boom") 0
      = Except.error "FileNotFoundError: zipcodes.txt" := by
  have h := c9_zip_file_handling
  refine ⟨?_, ?_,
    h.2.2.1 ["", "   "] "Hydrafacial" (fun _ => Except.ok [])
      (fun _ => Except.error "boom") 0 (by decide),
    (h.2.1 "Hydrafacial" (fun _ => Except.ok []) (fun _ => Except.ok [])
      (fun _ => Except.error "boom") (fun _ => Except.error "boom") 0 0).1⟩
  · rw [(h.1 ["10001", "", "90210"]).1]
    decide
  · rw [(h.1 ["10001", "", "90210"]).2]
    decide

end Claims
